import Mathlib

/-!
Verification of the map-rendering core of the NLDAS-3 copilot frontend
(class AzureMapsRenderer, src/unnamed/part_001).

The embedded operations are:
* the geographic bounds computation of `addPNGOverlay` (lines 131-138):
  `west = Math.min(...lons)`, `east = Math.max(...lons)`,
  `south = Math.min(...lats)`, `north = Math.max(...lats)`;
* the ImageLayer corner placement of `addPNGOverlay` (lines 149-158);
* `getColorGradient` (lines 351-403);
* `addLegend` (lines 411-456).

JavaScript numbers are modelled as rationals extended with the two
infinities (`JSNum`), because `Math.min()`/`Math.max()` applied to an
empty spread return `+Infinity`/`-Infinity` rather than throwing.
Rounding artifacts of IEEE doubles are not modelled; every concrete
value appearing in the claims is exactly representable.
-/

set_option linter.unusedVariables false

/-- A JavaScript number that is either finite (modelled exactly as a
rational) or one of the two infinities. `NaN` is not modelled: no claim
feeds a `NaN` into the embedded code. -/
inductive JSNum where
  | finite (q : ℚ)
  | posInf
  | negInf
deriving DecidableEq, Repr

/-- The numeric comparison `a <= b` on JavaScript numbers (no `NaN`). -/
def JSNum.le : JSNum → JSNum → Bool
  | .negInf, _ => true
  | .finite _, .negInf => false
  | .finite a, .finite b => a ≤ b
  | .finite _, .posInf => true
  | .posInf, .posInf => true
  | .posInf, .finite _ => false
  | .posInf, .negInf => false

/-- Binary `Math.min`: returns the smaller argument. -/
def jsMin2 (a b : JSNum) : JSNum := if JSNum.le a b then a else b

/-- Binary `Math.max`: returns the larger argument. -/
def jsMax2 (a b : JSNum) : JSNum := if JSNum.le a b then b else a

/-- Variadic `Math.min(...xs)` over a spread array of finite numbers:
fold of the binary minimum starting from `+Infinity`, which is what the
ECMAScript algorithm computes (and it returns `+Infinity` on an empty
argument list, throwing nothing). -/
def mathMin (xs : List ℚ) : JSNum :=
  xs.foldl (fun acc x => jsMin2 acc (JSNum.finite x)) JSNum.posInf

/-- Variadic `Math.max(...xs)`: fold of the binary maximum starting from
`-Infinity` (returned as-is on an empty argument list). -/
def mathMax (xs : List ℚ) : JSNum :=
  xs.foldl (fun acc x => jsMax2 acc (JSNum.finite x)) JSNum.negInf

/-- Geographic bounds as computed by `addPNGOverlay`. The spec calls
this record `GeoBounds`. -/
structure GeoBounds where
  west : JSNum
  east : JSNum
  south : JSNum
  north : JSNum
deriving DecidableEq, Repr

/-- Bounds phase of `addPNGOverlay` (src/unnamed/part_001 lines 131-138):
`west = Math.min(...lons)`, `east = Math.max(...lons)`,
`south = Math.min(...lats)`, `north = Math.max(...lats)`.
The spec names this operation `computeBounds`. No operation in this
region of the code can throw on array inputs, so the function is total. -/
def computeBounds (lons lats : List ℚ) : GeoBounds :=
  { west := mathMin lons
    east := mathMax lons
    south := mathMin lats
    north := mathMax lats }

/-- ImageLayer corner placement of `addPNGOverlay` (src/unnamed/part_001
lines 149-158): the `coordinates` array
`[[west, north], [east, north], [east, south], [west, south]]`.
The spec names this operation `placeOverlay`. -/
def placeOverlay (b : GeoBounds) : List (JSNum × JSNum) :=
  [(b.west, b.north), (b.east, b.north), (b.east, b.south), (b.west, b.south)]

/-- A value is the minimum of a list: it belongs to the list and bounds
it from below. -/
def isMinOf (w : ℚ) (xs : List ℚ) : Prop := w ∈ xs ∧ ∀ x ∈ xs, w ≤ x

/-- A value is the maximum of a list: it belongs to the list and bounds
it from above. -/
def isMaxOf (e : ℚ) (xs : List ℚ) : Prop := e ∈ xs ∧ ∀ x ∈ xs, x ≤ e

lemma jsMin2_finite (a y : ℚ) :
    jsMin2 (JSNum.finite a) (JSNum.finite y) = JSNum.finite (min a y) := by
  by_cases h : a ≤ y
  · simp [jsMin2, JSNum.le, h, min_def]
  · simp [jsMin2, JSNum.le, h, min_def]

lemma jsMax2_finite (a y : ℚ) :
    jsMax2 (JSNum.finite a) (JSNum.finite y) = JSNum.finite (max a y) := by
  by_cases h : a ≤ y
  · simp [jsMax2, JSNum.le, h, max_def]
  · simp [jsMax2, JSNum.le, h, max_def]

lemma foldlMin_finite (a : ℚ) (xs : List ℚ) :
    xs.foldl (fun acc x => jsMin2 acc (JSNum.finite x)) (JSNum.finite a)
      = JSNum.finite (xs.foldl min a) := by
  induction xs generalizing a with
  | nil => rfl
  | cons y ys ih => simp only [List.foldl_cons, jsMin2_finite, ih]

lemma foldlMax_finite (a : ℚ) (xs : List ℚ) :
    xs.foldl (fun acc x => jsMax2 acc (JSNum.finite x)) (JSNum.finite a)
      = JSNum.finite (xs.foldl max a) := by
  induction xs generalizing a with
  | nil => rfl
  | cons y ys ih => simp only [List.foldl_cons, jsMax2_finite, ih]

lemma mathMin_cons (x : ℚ) (xs : List ℚ) :
    mathMin (x :: xs) = JSNum.finite (xs.foldl min x) := by
  have h : jsMin2 JSNum.posInf (JSNum.finite x) = JSNum.finite x := rfl
  simp only [mathMin, List.foldl_cons, h, foldlMin_finite]

lemma mathMax_cons (x : ℚ) (xs : List ℚ) :
    mathMax (x :: xs) = JSNum.finite (xs.foldl max x) := by
  have h : jsMax2 JSNum.negInf (JSNum.finite x) = JSNum.finite x := rfl
  simp only [mathMax, List.foldl_cons, h, foldlMax_finite]

lemma foldl_min_le_init (a : ℚ) (xs : List ℚ) : xs.foldl min a ≤ a := by
  induction xs generalizing a with
  | nil => exact le_refl a
  | cons y ys ih => exact le_trans (ih (min a y)) (min_le_left a y)

lemma foldl_min_le_mem (a x : ℚ) (xs : List ℚ) (h : x ∈ xs) :
    xs.foldl min a ≤ x := by
  induction xs generalizing a with
  | nil => cases h
  | cons y ys ih =>
      rcases List.mem_cons.mp h with h1 | h2
      · subst h1
        exact le_trans (foldl_min_le_init (min a x) ys) (min_le_right a x)
      · exact ih (min a y) h2

lemma foldl_min_mem (a : ℚ) (xs : List ℚ) :
    xs.foldl min a = a ∨ xs.foldl min a ∈ xs := by
  induction xs generalizing a with
  | nil => exact Or.inl rfl
  | cons y ys ih =>
      rcases ih (min a y) with h | h
      · rcases min_cases a y with ⟨h1, _⟩ | ⟨h1, _⟩
        · left
          rw [List.foldl_cons, h, h1]
        · right
          rw [List.foldl_cons, h, h1]
          exact List.mem_cons_self y ys
      · right
        rw [List.foldl_cons]
        exact List.mem_cons_of_mem y h

lemma foldl_max_ge_init (a : ℚ) (xs : List ℚ) : a ≤ xs.foldl max a := by
  induction xs generalizing a with
  | nil => exact le_refl a
  | cons y ys ih => exact le_trans (le_max_left a y) (ih (max a y))

lemma foldl_max_ge_mem (a x : ℚ) (xs : List ℚ) (h : x ∈ xs) :
    x ≤ xs.foldl max a := by
  induction xs generalizing a with
  | nil => cases h
  | cons y ys ih =>
      rcases List.mem_cons.mp h with h1 | h2
      · subst h1
        exact le_trans (le_max_right a x) (foldl_max_ge_init (max a x) ys)
      · exact ih (max a y) h2

lemma foldl_max_mem (a : ℚ) (xs : List ℚ) :
    xs.foldl max a = a ∨ xs.foldl max a ∈ xs := by
  induction xs generalizing a with
  | nil => exact Or.inl rfl
  | cons y ys ih =>
      rcases ih (max a y) with h | h
      · rcases max_cases a y with ⟨h1, _⟩ | ⟨h1, _⟩
        · left
          rw [List.foldl_cons, h, h1]
        · right
          rw [List.foldl_cons, h, h1]
          exact List.mem_cons_self y ys
      · right
        rw [List.foldl_cons]
        exact List.mem_cons_of_mem y h

lemma isMinOf_foldl (x : ℚ) (xs : List ℚ) : isMinOf (xs.foldl min x) (x :: xs) := by
  constructor
  · rcases foldl_min_mem x xs with h | h
    · rw [h]
      exact List.mem_cons_self x xs
    · exact List.mem_cons_of_mem x h
  · intro z hz
    rcases List.mem_cons.mp hz with h1 | h2
    · rw [h1]
      exact foldl_min_le_init x xs
    · exact foldl_min_le_mem x z xs h2

lemma isMaxOf_foldl (x : ℚ) (xs : List ℚ) : isMaxOf (xs.foldl max x) (x :: xs) := by
  constructor
  · rcases foldl_max_mem x xs with h | h
    · rw [h]
      exact List.mem_cons_self x xs
    · exact List.mem_cons_of_mem x h
  · intro z hz
    rcases List.mem_cons.mp hz with h1 | h2
    · rw [h1]
      exact foldl_max_ge_init x xs
    · exact foldl_max_ge_mem x z xs h2

/-- A Maplibre-style heat-map color expression, the shape of the arrays
returned by `getColorGradient`:
`['interpolate', ['linear'], ['heatmap-density'], stop1, color1, ...]`.
The flat heterogeneous JS array is modelled as a record holding the
operator, the interpolation kind, the input channel, and the
(stop, color) pairs in order. -/
structure HeatmapExpression where
  op : String
  interpolation : String
  input : String
  stops : List (ℚ × String)
deriving DecidableEq, Repr

/-- The `case 'temperature'` gradient of `getColorGradient`
(src/unnamed/part_001 lines 353-364). -/
def temperatureGradient : HeatmapExpression :=
  { op := "interpolate"
    interpolation := "linear"
    input := "heatmap-density"
    stops :=
      [(0, "rgba(0, 0, 255, 0)"),
       (0.2, "rgba(0, 100, 255, 1)"),
       (0.4, "rgba(0, 255, 255, 1)"),
       (0.6, "rgba(255, 255, 0, 1)"),
       (0.8, "rgba(255, 100, 0, 1)"),
       (1, "rgba(255, 0, 0, 1)")] }

/-- The `case 'precipitation'` gradient of `getColorGradient`
(src/unnamed/part_001 lines 366-377). -/
def precipitationGradient : HeatmapExpression :=
  { op := "interpolate"
    interpolation := "linear"
    input := "heatmap-density"
    stops :=
      [(0, "rgba(255, 255, 255, 0)"),
       (0.2, "rgba(200, 200, 255, 1)"),
       (0.4, "rgba(100, 150, 255, 1)"),
       (0.6, "rgba(0, 100, 255, 1)"),
       (0.8, "rgba(0, 50, 200, 1)"),
       (1, "rgba(0, 0, 150, 1)")] }

/-- The `case 'drought'` gradient of `getColorGradient`
(src/unnamed/part_001 lines 379-391). -/
def droughtGradient : HeatmapExpression :=
  { op := "interpolate"
    interpolation := "linear"
    input := "heatmap-density"
    stops :=
      [(0, "rgba(139, 0, 0, 1)"),
       (0.25, "rgba(255, 0, 0, 1)"),
       (0.4, "rgba(255, 165, 0, 1)"),
       (0.5, "rgba(255, 255, 255, 0)"),
       (0.6, "rgba(173, 216, 230, 1)"),
       (0.75, "rgba(0, 191, 255, 1)"),
       (1, "rgba(0, 0, 255, 1)")] }

/-- The `default:` gradient of `getColorGradient`
(src/unnamed/part_001 lines 393-401). -/
def defaultGradient : HeatmapExpression :=
  { op := "interpolate"
    interpolation := "linear"
    input := "heatmap-density"
    stops :=
      [(0, "rgba(0, 0, 255, 0)"),
       (0.5, "rgba(0, 255, 0, 1)"),
       (1, "rgba(255, 0, 0, 1)")] }

/-- Method `getColorGradient(colorScheme, valueRange)` of
`AzureMapsRenderer` (src/unnamed/part_001 lines 351-403): a `switch` on
the scheme string with cases for temperature, precipitation and drought
and a `default:` branch; JS `switch` compares with strict string
equality. The `valueRange` parameter is accepted but never read. -/
def getColorGradient (colorScheme : String) (valueRange : ℚ × ℚ) : HeatmapExpression :=
  if colorScheme = "temperature" then temperatureGradient
  else if colorScheme = "precipitation" then precipitationGradient
  else if colorScheme = "drought" then droughtGradient
  else defaultGradient

/-- Errors of the embedded JS code. `typeError` is the JavaScript
TypeError thrown when a property that is `undefined` is called as a
function. `emptyInputError` and `invalidRangeError` are the error names
the specification introduces (EmptyInputError, InvalidRangeError); they
are part of the vocabulary so that claims about them can be stated, but
no code path in the source ever raises them. -/
inductive JSError where
  | typeError (msg : String)
  | emptyInputError
  | invalidRangeError
deriving DecidableEq, Repr

/-- The `legend` configuration object consumed by `addLegend`:
the fields the template reads are `title`, `date` and `region`. -/
structure Legend where
  title : String
  date : String
  region : String
deriving DecidableEq, Repr

/-- Every method defined on `class AzureMapsRenderer`
(src/unnamed/part_001, lines 1-629), in source order. No other file of
the repository adds properties to the class or its prototype. -/
def azureMapsRendererMethods : List String :=
  ["constructor", "initializeMap", "initializeWeatherMap", "addDataSources",
   "addLayers", "addPNGOverlay", "addGeoTIFFOverlay", "addInteractivePoints",
   "addWeatherData", "addWeatherPopups", "getColorGradient", "addLegend",
   "addPopups", "updateMap", "updateWeatherData", "addSearchBox",
   "searchLocation", "fitToData"]

/-- Property lookup `this.getLegendGradient` on an `AzureMapsRenderer`
instance: defined methods live on the prototype, listed in
`azureMapsRendererMethods`; a name absent from that list (and defined
nowhere else in the repository) looks up to `undefined`, i.e. `none`.
The `some` branch is unreachable because the name is not in the list;
its placeholder body stands for the method body that does not exist. -/
def getLegendGradient? : Option (String → String) :=
  if "getLegendGradient" ∈ azureMapsRendererMethods then
    some (fun _ => "")
  else
    none

/-- Rounding of `10 * q` to the nearest integer, halves rounded up
(toward positive infinity), matching the tie-breaking rule of
ECMAScript `Number.prototype.toFixed` (ties pick the larger n):
`floor(10q + 1/2)`, written on the numerator and denominator of `q`
(`den` is positive) so that only integer arithmetic is involved. -/
def ratRoundHalfUp10 (q : ℚ) : ℤ :=
  Int.fdiv (20 * q.num + (q.den : ℤ)) (2 * (q.den : ℤ))

/-- JavaScript `x.toFixed(1)` for finite numbers: round `x * 10` to the
nearest integer (ties up) and print with one digit after the point.
The sign JS prints on a negative value that rounds to zero ("-0.0") is
not modelled; no claim evaluates the function there. -/
def toFixed1 (q : ℚ) : String :=
  let n : ℤ := ratRoundHalfUp10 q
  let sign := if n < 0 then "-" else ""
  sign ++ toString (n.natAbs / 10) ++ "." ++ toString (n.natAbs % 10)

/-- The data content of the legend HTML template of `addLegend`
(src/unnamed/part_001 lines 413-449): the title heading, the
date/region subtitle, the CSS gradient of the swatch, and the two
boundary labels. Markup and styling strings carry no data and are not
modelled. -/
structure LegendRendering where
  title : String
  subtitle : String
  gradientCss : String
  labelLo : String
  labelHi : String
deriving DecidableEq, Repr

/-- The two boundary-label subexpressions of the legend template,
`valueRange[0].toFixed(1)` and `valueRange[1].toFixed(1)`
(src/unnamed/part_001 lines 442-443), evaluated in isolation. -/
def legendLabels (valueRange : ℚ × ℚ) : String × String :=
  (toFixed1 valueRange.1, toFixed1 valueRange.2)

/-- Method `addLegend(legend, colorScheme, valueRange)` of
`AzureMapsRenderer` (src/unnamed/part_001 lines 411-456). The template
literal evaluates its placeholders left to right: `legend.title`,
`legend.date`, `legend.region` (plain string reads), then
`this.getLegendGradient(colorScheme)` at line 436; when that property
is `undefined` the call throws TypeError and the later placeholders
(the `toFixed(1)` labels at lines 442-443) are never evaluated. There
is no check of `valueRange` anywhere in the method. -/
def addLegend (legend : Legend) (colorScheme : String) (valueRange : ℚ × ℚ) :
    Except JSError LegendRendering :=
  match getLegendGradient? with
  | none => .error (.typeError "this.getLegendGradient is not a function")
  | some f =>
      .ok { title := legend.title
            subtitle := legend.date ++ " | " ++ legend.region
            gradientCss := f colorScheme
            labelLo := toFixed1 valueRange.1
            labelHi := toFixed1 valueRange.2 }

/-- Well-formedness of a gradient's stop list as stated by the spec:
non-empty, first stop 0, last stop 1, stops strictly increasing, all
stops within the unit interval. -/
def validGradientStops (g : HeatmapExpression) : Prop :=
  g.stops ≠ [] ∧
  (g.stops.map Prod.fst).head? = some 0 ∧
  (g.stops.map Prod.fst).getLast? = some 1 ∧
  List.Chain' (fun a b => a < b) (g.stops.map Prod.fst) ∧
  ∀ p ∈ g.stops, 0 ≤ p.1 ∧ p.1 ≤ 1

/-- Whether an `addLegend` evaluation produced a rendering record
rather than throwing. -/
def legendSucceeded (r : Except JSError LegendRendering) : Bool :=
  match r with
  | .ok _ => true
  | .error _ => false

/-- C1: for every non-empty pair of longitude/latitude lists, the bounds
computation of `addPNGOverlay` returns finite bounds with west the
minimum and east the maximum of the longitudes, south the minimum and
north the maximum of the latitudes; consequently west is at most east
and south is at most north. -/
theorem computeBounds_minmax (lons lats : List ℚ) (h1 : lons ≠ []) (h2 : lats ≠ []) :
    ∃ w e s n : ℚ,
      computeBounds lons lats =
        { west := JSNum.finite w, east := JSNum.finite e,
          south := JSNum.finite s, north := JSNum.finite n } ∧
      isMinOf w lons ∧ isMaxOf e lons ∧ isMinOf s lats ∧ isMaxOf n lats ∧
      w ≤ e ∧ s ≤ n := by
  obtain ⟨x, xs, rfl⟩ := List.exists_cons_of_ne_nil h1
  obtain ⟨y, ys, rfl⟩ := List.exists_cons_of_ne_nil h2
  refine ⟨xs.foldl min x, xs.foldl max x, ys.foldl min y, ys.foldl max y,
    ?_, isMinOf_foldl x xs, isMaxOf_foldl x xs, isMinOf_foldl y ys, isMaxOf_foldl y ys,
    (isMinOf_foldl x xs).2 _ (isMaxOf_foldl x xs).1,
    (isMinOf_foldl y ys).2 _ (isMaxOf_foldl y ys).1⟩
  simp [computeBounds, mathMin_cons, mathMax_cons]

/-- Witness for C1 at the spec's end-to-end example points
(longitudes -87.6 and -80.0, latitudes 24.5 and 31.0). -/
theorem computeBounds_minmax_witness :
    ∃ w e s n : ℚ,
      computeBounds [-87.6, -80.0] [24.5, 31.0] =
        { west := JSNum.finite w, east := JSNum.finite e,
          south := JSNum.finite s, north := JSNum.finite n } ∧
      isMinOf w [-87.6, -80.0] ∧ isMaxOf e [-87.6, -80.0] ∧
      isMinOf s [24.5, 31.0] ∧ isMaxOf n [24.5, 31.0] ∧
      w ≤ e ∧ s ≤ n :=
  computeBounds_minmax [-87.6, -80.0] [24.5, 31.0] (by decide) (by decide)

/-- C2: for every bounds value, the ImageLayer corner placement returns
exactly 4 coordinate pairs in the fixed order
[(west,north), (east,north), (east,south), (west,south)]; corners 0 and
1 carry the north latitude, corners 2 and 3 the south latitude, corners
0 and 3 the west longitude, corners 1 and 2 the east longitude. -/
theorem placeOverlay_corner_order (b : GeoBounds) :
    placeOverlay b =
        [(b.west, b.north), (b.east, b.north), (b.east, b.south), (b.west, b.south)] ∧
      (placeOverlay b).length = 4 ∧
      (placeOverlay b)[0]?.map Prod.snd = some b.north ∧
      (placeOverlay b)[1]?.map Prod.snd = some b.north ∧
      (placeOverlay b)[2]?.map Prod.snd = some b.south ∧
      (placeOverlay b)[3]?.map Prod.snd = some b.south ∧
      (placeOverlay b)[0]?.map Prod.fst = some b.west ∧
      (placeOverlay b)[3]?.map Prod.fst = some b.west ∧
      (placeOverlay b)[1]?.map Prod.fst = some b.east ∧
      (placeOverlay b)[2]?.map Prod.fst = some b.east :=
  ⟨rfl, rfl, rfl, rfl, rfl, rfl, rfl, rfl, rfl, rfl⟩

/-- Counterexample to C3: on empty input lists the bounds phase of
`addPNGOverlay` returns a bounds value (the fold identities of
min and max, the two infinities) instead of failing: `Math.min()` of an
empty spread is `+Infinity` and throws nothing. -/
theorem computeBounds_empty_returns_value :
    computeBounds ([] : List ℚ) ([] : List ℚ) =
      { west := JSNum.posInf, east := JSNum.negInf,
        south := JSNum.posInf, north := JSNum.negInf } := rfl

/-- C3 (amended): on empty input lists the bounds computation raises no
error; it returns west = +Infinity, east = -Infinity, south = +Infinity,
north = -Infinity, bounds that are inverted: west is not at most east
and south is not at most north. -/
theorem computeBounds_empty_inverted :
    (computeBounds ([] : List ℚ) ([] : List ℚ)).west = JSNum.posInf ∧
      (computeBounds ([] : List ℚ) ([] : List ℚ)).east = JSNum.negInf ∧
      (computeBounds ([] : List ℚ) ([] : List ℚ)).south = JSNum.posInf ∧
      (computeBounds ([] : List ℚ) ([] : List ℚ)).north = JSNum.negInf ∧
      JSNum.le (computeBounds ([] : List ℚ) ([] : List ℚ)).west
        (computeBounds ([] : List ℚ) ([] : List ℚ)).east = false ∧
      JSNum.le (computeBounds ([] : List ℚ) ([] : List ℚ)).south
        (computeBounds ([] : List ℚ) ([] : List ℚ)).north = false :=
  ⟨rfl, rfl, rfl, rfl, rfl, rfl⟩

/-- C4: every invocation of `addLegend` throws TypeError while the
legend template evaluates `this.getLegendGradient(colorScheme)`,
because no method of that name is defined on `AzureMapsRenderer` (or
anywhere else in the repository); no legend output is ever produced. -/
theorem addLegend_always_typeError (legend : Legend) (colorScheme : String)
    (valueRange : ℚ × ℚ) :
    addLegend legend colorScheme valueRange
      = Except.error (JSError.typeError "this.getLegendGradient is not a function") := rfl

/-- Counterexample to C5: with the inverted value range (10, 5),
`addLegend` does not fail with InvalidRangeError; it fails with the
TypeError thrown by the missing `getLegendGradient` method. -/
theorem addLegend_inverted_not_invalidRange :
    addLegend { title := "Temperature", date := "2024-01-15", region := "Florida" }
        "temperature" (10, 5)
      ≠ Except.error JSError.invalidRangeError := by
  intro h
  exact absurd (Except.error.inj h) (by decide)

/-- C5 (amended): for every legend input whose value range is inverted,
`addLegend` fails, but with the TypeError of the missing
`getLegendGradient` method, the same failure as every call;
the method contains no range check and no InvalidRangeError path. -/
theorem addLegend_inverted_range_typeError (legend : Legend) (colorScheme : String)
    (lo hi : ℚ) (h : hi < lo) :
    addLegend legend colorScheme (lo, hi)
      = Except.error (JSError.typeError "this.getLegendGradient is not a function") := rfl

/-- Witness for C5 (amended) at the spec's example range (10, 5). -/
theorem addLegend_inverted_range_typeError_witness :
    (5 : ℚ) < 10 ∧
      addLegend { title := "Temperature", date := "2024-01-15", region := "Florida" }
          "temperature" (10, 5)
        = Except.error (JSError.typeError "this.getLegendGradient is not a function") :=
  ⟨by decide,
   addLegend_inverted_range_typeError
     { title := "Temperature", date := "2024-01-15", region := "Florida" }
     "temperature" 10 5 (by decide)⟩

/-- C6: `getColorGradient` is total over scheme-name strings, and every
name other than temperature, precipitation and drought (hence every
unknown name, and the name default itself) returns exactly the default
gradient. -/
theorem getColorGradient_unknown_default (s : String) (r : ℚ × ℚ)
    (h1 : s ≠ "temperature") (h2 : s ≠ "precipitation") (h3 : s ≠ "drought") :
    getColorGradient s r = defaultGradient := by
  simp [getColorGradient, h1, h2, h3]

/-- Witness for C6 at the unknown scheme name of the spec's property
list. -/
theorem getColorGradient_unknown_default_witness :
    "unknown-scheme-xyz" ≠ "temperature" ∧
      getColorGradient "unknown-scheme-xyz" (0, 1) = defaultGradient :=
  ⟨by decide,
   getColorGradient_unknown_default "unknown-scheme-xyz" (0, 1)
     (by decide) (by decide) (by decide)⟩

/-- C7: for every scheme-name string (the three named schemes, the name
default, and any unknown name alike), the gradient returned by
`getColorGradient` has a non-empty stop list whose stops are strictly
increasing within the unit interval, with first stop 0 and last stop 1. -/
theorem getColorGradient_stops_valid (s : String) (r : ℚ × ℚ) :
    validGradientStops (getColorGradient s r) := by
  have ht : validGradientStops temperatureGradient := by
    refine ⟨List.cons_ne_nil _ _, rfl, rfl, ?_, ?_⟩
    · simp only [temperatureGradient, List.map_cons, List.map_nil, List.chain'_cons,
        List.chain'_singleton, and_true]
      norm_num
    · intro p hp
      simp only [temperatureGradient, List.mem_cons, List.not_mem_nil, or_false] at hp
      rcases hp with rfl | rfl | rfl | rfl | rfl | rfl <;> norm_num
  have hp : validGradientStops precipitationGradient := by
    refine ⟨List.cons_ne_nil _ _, rfl, rfl, ?_, ?_⟩
    · simp only [precipitationGradient, List.map_cons, List.map_nil, List.chain'_cons,
        List.chain'_singleton, and_true]
      norm_num
    · intro p hp
      simp only [precipitationGradient, List.mem_cons, List.not_mem_nil, or_false] at hp
      rcases hp with rfl | rfl | rfl | rfl | rfl | rfl <;> norm_num
  have hd : validGradientStops droughtGradient := by
    refine ⟨List.cons_ne_nil _ _, rfl, rfl, ?_, ?_⟩
    · simp only [droughtGradient, List.map_cons, List.map_nil, List.chain'_cons,
        List.chain'_singleton, and_true]
      norm_num
    · intro p hp
      simp only [droughtGradient, List.mem_cons, List.not_mem_nil, or_false] at hp
      rcases hp with rfl | rfl | rfl | rfl | rfl | rfl | rfl <;> norm_num
  have hdef : validGradientStops defaultGradient := by
    refine ⟨List.cons_ne_nil _ _, rfl, rfl, ?_, ?_⟩
    · simp only [defaultGradient, List.map_cons, List.map_nil, List.chain'_cons,
        List.chain'_singleton, and_true]
      norm_num
    · intro p hp
      simp only [defaultGradient, List.mem_cons, List.not_mem_nil, or_false] at hp
      rcases hp with rfl | rfl | rfl <;> norm_num
  unfold getColorGradient
  split
  · exact ht
  · split
    · exact hp
    · split
      · exact hd
      · exact hdef

/-- Counterexample to C8: with the well-ordered value range (0, 45),
`addLegend` still produces no presentation record and no boundary
labels; it fails with the TypeError of the missing `getLegendGradient`
method, thrown before the label subexpressions are evaluated. -/
theorem addLegend_ordered_range_still_fails :
    legendSucceeded
        (addLegend { title := "Precipitation", date := "2024-01-15", region := "Gulf Coast" }
          "precipitation" (0, 45)) = false := rfl

/-- C8 (amended): the boundary-label subexpressions of the legend
template format the range ends to one decimal place, yielding "0.0" and
"45.0" for the range (0, 45); but `addLegend` itself throws TypeError
before reaching them, so the labels are never produced by the method. -/
theorem legendLabels_one_decimal :
    legendLabels (0, 45) = ("0.0", "45.0") ∧
      addLegend { title := "Precipitation", date := "2024-01-15", region := "Gulf Coast" }
          "precipitation" (0, 45)
        = Except.error (JSError.typeError "this.getLegendGradient is not a function") :=
  ⟨rfl, rfl⟩

/-- C9: a single sample point yields degenerate bounds with west equal
to east and south equal to north, and the corner placement still
returns four (here coincident) corners; the placement never fails and
returns four corners for every bounds value, degenerate or not. -/
theorem computeBounds_single_degenerate (lon lat : ℚ) :
    computeBounds [lon] [lat] =
        { west := JSNum.finite lon, east := JSNum.finite lon,
          south := JSNum.finite lat, north := JSNum.finite lat } ∧
      placeOverlay (computeBounds [lon] [lat]) =
        [(JSNum.finite lon, JSNum.finite lat), (JSNum.finite lon, JSNum.finite lat),
         (JSNum.finite lon, JSNum.finite lat), (JSNum.finite lon, JSNum.finite lat)] ∧
      ∀ b : GeoBounds, (placeOverlay b).length = 4 :=
  ⟨rfl, rfl, fun _ => rfl⟩

/-- C10: the gradient returned by `getColorGradient` does not depend on
the `valueRange` argument: for any scheme name and any two value
ranges, the results coincide. -/
theorem getColorGradient_valueRange_independent (s : String) (r1 r2 : ℚ × ℚ) :
    getColorGradient s r1 = getColorGradient s r2 := rfl
